import Mathlib

/-!
Verification of the finpilot-mcp gateway adapter.

This file gives a shallow embedding of the Python sources
`finpilot_mcp/constants.py`, `finpilot_mcp/config.py`,
`finpilot_mcp/client.py` and `finpilot_mcp/server.py`, and proves the
spec's claims about them.  Python dictionaries holding JSON data are
modelled by the inductive `Json` type; Python `None` is `Json.null`;
Python truthiness of optional strings, floats and JSON values is spelled
out explicitly (`Pystr.truthy`, `timeoutOr`, `Json.truthy`).  Machine
floats carry no arithmetic here (timeouts are only stored, compared with
`or`-truthiness and passed through), so they are modelled by `ℚ`.
The outcome of the single outbound HTTP call made by the shared request
primitive is an external input, modelled by `TransportOutcome`; the
`except httpx.TimeoutException` clause precedes `except httpx.RequestError`
in the source, so a timeout is always classified by the first clause,
which the disjoint constructors `timeout` / `transportError` reflect.
-/

namespace FinPilot

/-- JSON values as parsed or serialised by the Python `json` machinery:
response bodies (`response.json()`) and outbound request bodies. -/
inductive Json where
  | null : Json
  | bool (b : Bool) : Json
  | num (q : ℚ) : Json
  | str (s : String) : Json
  | arr (elems : List Json) : Json
  | obj (fields : List (String × Json)) : Json

/-- First-match lookup in the field list of a JSON object, as a Python
dict lookup (insertion order preserved, first binding wins). -/
def lookupField : List (String × Json) → String → Option Json
  | [], _ => none
  | (k, v) :: rest, key => if k = key then some v else lookupField rest key

/-- `j` has key `k` (only JSON objects have keys). -/
def Json.hasKey : Json → String → Bool
  | .obj fields, k => (lookupField fields k).isSome
  | _, _ => false

/-- Key lookup on a JSON value: `some v` when `j` is an object with key
`k` bound to `v`. -/
def Json.get? : Json → String → Option Json
  | .obj fields, k => lookupField fields k
  | _, _ => none

/-- Python truthiness of a JSON value (`bool(x)` for the corresponding
Python value): `None`, `False`, `0`, `""`, `[]`, `{}` are falsy. -/
def Json.truthy : Json → Bool
  | .null => false
  | .bool b => b
  | .num q => q ≠ 0
  | .str s => s ≠ ""
  | .arr elems => !elems.isEmpty
  | .obj fields => !fields.isEmpty

/-- Python truthiness of an `Optional[str]`: `None` and `""` are falsy. -/
def Pystr.truthy : Option String → Bool
  | none => false
  | some s => s ≠ ""

/-- A Python `Optional[str]` as a JSON body value: `None` serialises to
`null`. -/
def Json.ofOptStr : Option String → Json
  | none => .null
  | some s => .str s

/-- A Python optional dict/list argument as a JSON body value. -/
def Json.ofOpt : Option Json → Json
  | none => .null
  | some j => j

/-!  ## constants.py  -/

/-- `DEFAULT_API_GATEWAY_URL` (constants.py line 7). -/
def DEFAULT_API_GATEWAY_URL : String := "https://api.finpilot.ai"

/-- `LOCAL_API_GATEWAY_URL` (constants.py line 10). -/
def LOCAL_API_GATEWAY_URL : String := "http://localhost:8000"

/-- The `ENDPOINTS` dict (constants.py lines 13-19). -/
def ENDPOINTS : List (String × String) :=
  [("credit_analyze", "/v1/credit/analyze"),
   ("credit_health", "/v1/credit/health"),
   ("portfolio_analyze", "/v1/portfolio/analyze"),
   ("loan_optimize", "/v1/loans/optimize"),
   ("financial_plan", "/v1/plan/create")]

/-- `ENDPOINTS[key]` — every key used by the client is present, so the
Python subscript never raises and a defaulted lookup is faithful. -/
def endpointOf (key : String) : String :=
  ((ENDPOINTS.lookup key).getD "")

/-!  ## config.py  -/

/-- The pydantic `Settings` model (config.py lines 12-57): field values
after environment-variable loading. -/
structure Settings where
  api_gateway_url : String := DEFAULT_API_GATEWAY_URL
  api_key : Option String := none
  jwt_token : Option String := none
  environment : String := "production"
  request_timeout : ℚ := 30
  upload_timeout : ℚ := 120
deriving Repr, DecidableEq

/-- `Settings.is_local_dev` (config.py lines 59-62). -/
def Settings.is_local_dev (s : Settings) : Bool :=
  s.environment = "development"

/-- An environment as seen by `os.getenv`: variable name to optional
value. -/
def Env : Type := String → Option String

/-- `Settings.effective_gateway_url` (config.py lines 64-69):
`os.getenv("FINPILOT_API_GATEWAY_URL", LOCAL_API_GATEWAY_URL)` in local
dev mode, the configured URL otherwise. -/
def Settings.effective_gateway_url (s : Settings) (env : Env) : String :=
  if s.is_local_dev then
    (env "FINPILOT_API_GATEWAY_URL").getD LOCAL_API_GATEWAY_URL
  else
    s.api_gateway_url

/-- `Settings.has_auth` (config.py lines 71-74): note `is not None`, not
truthiness. -/
def Settings.has_auth (s : Settings) : Bool :=
  s.api_key.isSome || s.jwt_token.isSome

/-!  ## client.py  -/

/-- Python exceptions that client.py can raise.  `FinPilotAPIError`
carries the fields set in its `__init__` (client.py lines 11-18);
`jsonDecodeError` models the error `response.json()` raises on empty or
malformed content, and `attributeError` the error `error_data.get(...)`
raises when the parsed body is not a dict (the exact Python message
strings of those two are abstracted as the carried text). -/
inductive PyError where
  | FinPilotAPIError (status_code : ℕ) (message : String) (details : Json)
  | jsonDecodeError (raw : String)
  | attributeError (msg : String)

/-- `str(e)` on the exceptions above; for `FinPilotAPIError` this is the
string passed to `super().__init__` (client.py line 18). -/
def PyError.pyStr : PyError → String
  | .FinPilotAPIError status_code message _ => s!"API Error {status_code}: {message}"
  | .jsonDecodeError raw => raw
  | .attributeError msg => msg

/-- Constructing `FinPilotAPIError(status_code, message, details)`:
`self.details = details or {}` (client.py line 17), Python `or` on the
optional dict argument. -/
def mkFinPilotAPIError (status_code : ℕ) (message : String)
    (details : Option Json) : PyError :=
  .FinPilotAPIError status_code message
    (match details with
     | none => .obj []
     | some j => if j.truthy then j else .obj [])

/-- `str()` of the value `error_data.get("message", ...)` produces, used
as the error message.  In every claim exercised here the field is a
string or absent; non-string JSON values are rendered structurally. -/
def Json.pyStrOf : Json → String
  | .null => "None"
  | .bool true => "True"
  | .bool false => "False"
  | .num q => toString q
  | .str s => s
  | .arr _ => "<list>"
  | .obj _ => "<dict>"

/-- The body of an HTTP response as the client sees it: empty content,
content parsing to a JSON value, or non-empty content that is not valid
JSON. -/
inductive Body where
  | empty : Body
  | json (j : Json) : Body
  | malformed (raw : String) : Body

/-- `response.content` is non-empty (a parsed JSON text is never the
empty string). -/
def Body.hasContent : Body → Bool
  | .empty => false
  | .json _ => true
  | .malformed _ => true

/-- `response.json()`: parses the content, raising a decode error on
empty or malformed content. -/
def Body.parse : Body → Except PyError Json
  | .empty => .error (.jsonDecodeError "Expecting value")
  | .json j => .ok j
  | .malformed raw => .error (.jsonDecodeError raw)

/-- An HTTP response from the gateway. -/
structure HttpResponse where
  status_code : ℕ
  body : Body

/-- Outcome of the single `httpx` call inside the `try` block of
`_request` (client.py lines 74-81): a response, or one of the two
transport exception classes distinguished by the two `except` clauses
(lines 94-105).  `httpx.TimeoutException` is caught first, so timeouts
are never classified by the `RequestError` clause. -/
inductive TransportOutcome where
  | response (r : HttpResponse) : TransportOutcome
  | timeout (msg : String) : TransportOutcome
  | transportError (msg : String) : TransportOutcome

/-- `error_data.get("message", "API request failed")` (client.py line
88): a dict lookup with default on a dict, an `AttributeError` on any
other parsed JSON value. -/
def getMessageField : Json → Except PyError Json
  | .obj fields => .ok ((lookupField fields "message").getD (.str "API request failed"))
  | _ => .error (.attributeError "object has no attribute get")

/-- Response/exception handling of `_request` (client.py lines 83-105),
shared by all five operations.  On status ≥ 400 the body is parsed when
content is present (`{}` otherwise), the message extracted and a
`FinPilotAPIError` raised; on status < 400 the parsed body is returned;
the two transport exception classes become the synthesized 504 and 503
errors. -/
def request_result (outcome : TransportOutcome) : Except PyError Json :=
  match outcome with
  | .response r =>
      if r.status_code ≥ 400 then
        match (if r.body.hasContent then r.body.parse else .ok (Json.obj [])) with
        | .error e => .error e
        | .ok error_data =>
            match getMessageField error_data with
            | .error e => .error e
            | .ok msg =>
                .error (mkFinPilotAPIError r.status_code msg.pyStrOf (some error_data))
      else
        r.body.parse
  | .timeout e =>
      .error (mkFinPilotAPIError 504 "Request timeout" (some (.obj [("error", .str e)])))
  | .transportError e =>
      .error (mkFinPilotAPIError 503 "Failed to connect to API" (some (.obj [("error", .str e)])))

/-- The client instance state set in `FinPilotClient.__init__` (client.py
lines 27-31): the effective gateway URL and the two timeouts, captured
from the settings at construction time. -/
structure FinPilotClient where
  base_url : String
  timeout : ℚ
  upload_timeout : ℚ
deriving Repr, DecidableEq

/-- `FinPilotClient.__init__` (client.py lines 27-31), reading the global
`settings` (and, through `effective_gateway_url`, `os.getenv`). -/
def FinPilotClient.ofSettings (s : Settings) (env : Env) : FinPilotClient :=
  { base_url := s.effective_gateway_url env
    timeout := s.request_timeout
    upload_timeout := s.upload_timeout }

/-- `FinPilotClient._get_headers` (client.py lines 33-46): content type
and user agent always; `if settings.jwt_token: ... elif settings.api_key:
...` — Python truthiness on the optional strings. -/
def FinPilotClient.get_headers (s : Settings) : List (String × String) :=
  let headers := [("Content-Type", "application/json"),
                  ("User-Agent", "finpilot-mcp/0.1.0")]
  if Pystr.truthy s.jwt_token then
    headers ++ [("Authorization", "Bearer " ++ s.jwt_token.getD "")]
  else if Pystr.truthy s.api_key then
    headers ++ [("X-API-Key", s.api_key.getD "")]
  else
    headers

/-- Python `timeout or self.timeout` (client.py line 71): the default is
used when the argument is `None` or any falsy float, i.e. `0.0`. -/
def timeoutOr (timeout : Option ℚ) (default : ℚ) : ℚ :=
  match timeout with
  | none => default
  | some v => if v = 0 then default else v

/-- The arguments one of the five API methods passes to `_request`:
method, endpoint, JSON body, and the optional per-call timeout. -/
structure CallSpec where
  method : String
  endpoint : String
  body : Json
  timeout : Option ℚ

/-- The outbound HTTP request `_request` issues (client.py lines 69-81):
URL concatenation, headers from `_get_headers`, the JSON body, and the
effective timeout after the falsy-fallback. -/
structure OutboundRequest where
  method : String
  url : String
  headers : List (String × String)
  body : Json
  timeout : ℚ

/-- Request construction in `_request` (client.py lines 69-71 and 75-81)
for a given call: what is sent over the wire. -/
def FinPilotClient.request_sent (c : FinPilotClient) (s : Settings)
    (cs : CallSpec) : OutboundRequest :=
  { method := cs.method
    url := c.base_url ++ cs.endpoint
    headers := FinPilotClient.get_headers s
    body := cs.body
    timeout := timeoutOr cs.timeout c.timeout }

/-!  The five API methods (client.py lines 111-216): each builds its
JSON body, picks its endpoint and (for the two upload operations) passes
the upload timeout to `_request`. -/

/-- `FinPilotClient.analyze_credit_report` (client.py lines 111-130). -/
def FinPilotClient.analyze_credit_report (c : FinPilotClient)
    (pdf_base64 : String) (bureau : Option String) : CallSpec :=
  { method := "POST"
    endpoint := endpointOf "credit_analyze"
    body := .obj [("pdf_base64", .str pdf_base64), ("bureau", Json.ofOptStr bureau)]
    timeout := some c.upload_timeout }

/-- `FinPilotClient.get_credit_health` (client.py lines 132-146):
`params = {"user_id": user_id} if user_id else {}` — the key is only
present when `user_id` is truthy. -/
def FinPilotClient.get_credit_health (_c : FinPilotClient)
    (user_id : Option String) : CallSpec :=
  { method := "GET"
    endpoint := endpointOf "credit_health"
    body := if Pystr.truthy user_id then .obj [("user_id", Json.ofOptStr user_id)]
            else .obj []
    timeout := none }

/-- `FinPilotClient.analyze_portfolio` (client.py lines 148-170). -/
def FinPilotClient.analyze_portfolio (c : FinPilotClient)
    (cas_pdf_base64 : Option String) (portfolio_data : Option Json) : CallSpec :=
  { method := "POST"
    endpoint := endpointOf "portfolio_analyze"
    body := .obj [("cas_pdf_base64", Json.ofOptStr cas_pdf_base64),
                  ("portfolio_data", Json.ofOpt portfolio_data)]
    timeout := some c.upload_timeout }

/-- `FinPilotClient.optimize_loans` (client.py lines 172-190). -/
def FinPilotClient.optimize_loans (_c : FinPilotClient)
    (loans : Option Json) (user_id : Option String) : CallSpec :=
  { method := "POST"
    endpoint := endpointOf "loan_optimize"
    body := .obj [("loans", Json.ofOpt loans), ("user_id", Json.ofOptStr user_id)]
    timeout := none }

/-- `FinPilotClient.create_financial_plan` (client.py lines 192-216). -/
def FinPilotClient.create_financial_plan (_c : FinPilotClient)
    (goals : Json) (current_situation : Json) (user_id : Option String) : CallSpec :=
  { method := "POST"
    endpoint := endpointOf "financial_plan"
    body := .obj [("goals", goals), ("current_situation", current_situation),
                  ("user_id", Json.ofOptStr user_id)]
    timeout := none }

/-!  ## server.py  -/

/-- The `try/except` body shared by every tool handler (e.g. server.py
lines 53-63): a successful client result is wrapped as
`{"status": "success", "data": result}`, any exception `e` is caught and
wrapped as `{"status": "error", "error": str(e)}`.  In this embedding
every exception the call can raise is a `PyError` value, so the catch-all
`except Exception` is the `.error` branch. -/
def toolEnvelope (result : Except PyError Json) : Json :=
  match result with
  | .ok d => .obj [("status", .str "success"), ("data", d)]
  | .error e => .obj [("status", .str "error"), ("error", .str e.pyStr)]

/-- One tool handler invocation: the handler calls its client method,
`_request` sends the outbound request built from the call spec, the
transport produces `outcome`, and the handler wraps the result.  Returns
both the request that went over the wire and the returned envelope. -/
def runTool (c : FinPilotClient) (s : Settings) (cs : CallSpec)
    (outcome : TransportOutcome) : OutboundRequest × Json :=
  (c.request_sent s cs, toolEnvelope (request_result outcome))

/-- Tool `analyze_credit_report` (server.py lines 35-63). -/
def analyze_credit_report_tool (c : FinPilotClient) (s : Settings)
    (pdf_base64 : String) (bureau : Option String)
    (outcome : TransportOutcome) : OutboundRequest × Json :=
  runTool c s (c.analyze_credit_report pdf_base64 bureau) outcome

/-- Tool `get_credit_health` (server.py lines 66-90). -/
def get_credit_health_tool (c : FinPilotClient) (s : Settings)
    (user_id : Option String) (outcome : TransportOutcome) : OutboundRequest × Json :=
  runTool c s (c.get_credit_health user_id) outcome

/-- Tool `analyze_portfolio` (server.py lines 97-126). -/
def analyze_portfolio_tool (c : FinPilotClient) (s : Settings)
    (cas_pdf_base64 : Option String) (portfolio_data : Option Json)
    (outcome : TransportOutcome) : OutboundRequest × Json :=
  runTool c s (c.analyze_portfolio cas_pdf_base64 portfolio_data) outcome

/-- Tool `optimize_loans` (server.py lines 133-161). -/
def optimize_loans_tool (c : FinPilotClient) (s : Settings)
    (loans : Option Json) (user_id : Option String)
    (outcome : TransportOutcome) : OutboundRequest × Json :=
  runTool c s (c.optimize_loans loans user_id) outcome

/-- Tool `create_financial_plan` (server.py lines 168-201). -/
def create_financial_plan_tool (c : FinPilotClient) (s : Settings)
    (goals : Json) (current_situation : Json) (user_id : Option String)
    (outcome : TransportOutcome) : OutboundRequest × Json :=
  runTool c s (c.create_financial_plan goals current_situation user_id) outcome

/-!  ## Process startup (server.py `main`, and import order)  -/

/-- The two non-sensitive CLI overrides accepted by `main` (server.py
lines 301-309). -/
structure Args where
  api_gateway_url : Option String := none
  environment : Option String := none
deriving Repr, DecidableEq

/-- `main`'s override application (server.py lines 331-335):
`if args.api_gateway_url: settings.api_gateway_url = ...` and likewise
for the environment — truthiness guards on the argparse values. -/
def applyOverrides (a : Args) (s : Settings) : Settings :=
  let s1 := if Pystr.truthy a.api_gateway_url then
              { s with api_gateway_url := a.api_gateway_url.getD "" }
            else s
  if Pystr.truthy a.environment then
    { s1 with environment := a.environment.getD "" }
  else s1

/-- The state of the process once `main` reaches tool-serving: the
settings after CLI overrides, and the module-level client singleton. -/
structure ProcessState where
  settings : Settings
  client : FinPilotClient

/-- Process startup order: `server.py` imports `finpilot_mcp.client`,
whose module body runs `client = FinPilotClient()` (client.py line 220)
against the pre-override settings `s0`; only afterwards does `main`
parse arguments and apply the CLI overrides to the settings object
(server.py lines 329-335).  The client singleton used by every tool
handler is the one constructed at import time. -/
def startup (s0 : Settings) (env : Env) (a : Args) : ProcessState :=
  let importedClient := FinPilotClient.ofSettings s0 env
  { settings := applyOverrides a s0, client := importedClient }

/-- Result classified as a `FinPilotAPIError` being raised. -/
def isAPIErrorResult : Except PyError Json → Bool
  | .error (.FinPilotAPIError _ _ _) => true
  | _ => false

/-- The two envelope shapes a tool handler may return. -/
def isEnvelope : Json → Bool
  | .obj [("status", .str "success"), ("data", _)] => true
  | .obj [("status", .str "error"), ("error", .str _)] => true
  | _ => false

/-!  ## Theorems  -/

/-- Shared: a sub-400 response with a JSON body passes through. -/
theorem request_result_success (sc : ℕ) (h : sc < 400) (j : Json) :
    request_result (.response ⟨sc, .json j⟩) = .ok j := by
  unfold request_result
  simp [Body.parse, Nat.not_le.mpr h]

/-- C4: a timeout of the outbound call is classified as a typed API error
with status 504 and message "Request timeout", any other transport-level
failure as status 503 with message "Failed to connect to API", each with
the underlying description in the details; the disjoint classification
(`except httpx.TimeoutException` before `except httpx.RequestError`)
means a timeout is never classified 503. -/
theorem C4_transport_classification (e : String) :
    request_result (.timeout e)
      = .error (.FinPilotAPIError 504 "Request timeout" (.obj [("error", .str e)])) ∧
    request_result (.transportError e)
      = .error (.FinPilotAPIError 503 "Failed to connect to API" (.obj [("error", .str e)])) := by
  exact ⟨rfl, rfl⟩

/-- C5: for each of the five tools, a response with status < 400 and a
JSON body yields exactly the envelope
`{"status": "success", "data": <that JSON>}`. -/
theorem C5_success_passthrough (c : FinPilotClient) (s : Settings) (sc : ℕ) (j : Json)
    (pdf : String) (bureau cas uidh uidl uidp : Option String)
    (pd loans : Option Json) (goals cur : Json) (hsc : sc < 400) :
    (analyze_credit_report_tool c s pdf bureau (.response ⟨sc, .json j⟩)).2
      = .obj [("status", .str "success"), ("data", j)] ∧
    (get_credit_health_tool c s uidh (.response ⟨sc, .json j⟩)).2
      = .obj [("status", .str "success"), ("data", j)] ∧
    (analyze_portfolio_tool c s cas pd (.response ⟨sc, .json j⟩)).2
      = .obj [("status", .str "success"), ("data", j)] ∧
    (optimize_loans_tool c s loans uidl (.response ⟨sc, .json j⟩)).2
      = .obj [("status", .str "success"), ("data", j)] ∧
    (create_financial_plan_tool c s goals cur uidp (.response ⟨sc, .json j⟩)).2
      = .obj [("status", .str "success"), ("data", j)] := by
  have h := request_result_success sc hsc j
  refine ⟨?_, ?_, ?_, ?_, ?_⟩ <;>
    simp [analyze_credit_report_tool, get_credit_health_tool, analyze_portfolio_tool,
          optimize_loans_tool, create_financial_plan_tool, runTool, toolEnvelope, h]

/-- Witness for C5 at a concrete sub-400 response. -/
theorem C5_success_passthrough_witness :
    200 < 400 ∧
    (analyze_credit_report_tool ⟨"https://api.finpilot.ai", 30, 120⟩ {} "pdf" none
        (.response ⟨200, .json (.str "payload")⟩)).2
      = .obj [("status", .str "success"), ("data", .str "payload")] :=
  ⟨by decide,
   (C5_success_passthrough ⟨"https://api.finpilot.ai", 30, 120⟩ {} 200 (.str "payload")
      "pdf" none none none none none none none .null .null (by decide)).1⟩

/-- C10: the shared request primitive treats a supplied timeout equal to
0 as falsy: the request is issued with the default (standard) timeout
instead, in particular for an upload-class operation whose configured
upload timeout is 0. -/
theorem C10_zero_timeout_fallback (c : FinPilotClient) (s : Settings) (cs : CallSpec)
    (pdf : String) (bureau : Option String)
    (h : cs.timeout = some 0) (h0 : c.upload_timeout = 0) :
    (c.request_sent s cs).timeout = c.timeout ∧
    (c.request_sent s (c.analyze_credit_report pdf bureau)).timeout = c.timeout := by
  constructor <;>
    simp [FinPilotClient.request_sent, FinPilotClient.analyze_credit_report, timeoutOr, h, h0]

/-- Witness for C10: a client configured with upload timeout 0 and
standard timeout 30 sends its upload request with timeout 30. -/
theorem C10_zero_timeout_fallback_witness :
    (FinPilotClient.request_sent ⟨"https://api.finpilot.ai", 30, 0⟩ {}
        { method := "POST", endpoint := "/v1/credit/analyze",
          body := .obj [], timeout := some 0 }).timeout = 30 ∧
    (FinPilotClient.request_sent ⟨"https://api.finpilot.ai", 30, 0⟩ {}
        (FinPilotClient.analyze_credit_report ⟨"https://api.finpilot.ai", 30, 0⟩
          "pdf" none)).timeout = 30 :=
  C10_zero_timeout_fallback ⟨"https://api.finpilot.ai", 30, 0⟩ {}
    { method := "POST", endpoint := "/v1/credit/analyze", body := .obj [], timeout := some 0 }
    "pdf" none rfl rfl

/-- C9: with environment tag "development" the effective gateway URL is
the `FINPILOT_API_GATEWAY_URL` environment variable when set and
`http://localhost:8000` otherwise; with any other tag it is the
configured gateway URL unconditionally. -/
theorem C9_effective_url_resolution (s : Settings) (env : Env) :
    (s.environment = "development" →
       (∀ v, env "FINPILOT_API_GATEWAY_URL" = some v →
          s.effective_gateway_url env = v) ∧
       (env "FINPILOT_API_GATEWAY_URL" = none →
          s.effective_gateway_url env = "http://localhost:8000")) ∧
    (s.environment ≠ "development" →
       s.effective_gateway_url env = s.api_gateway_url) := by
  refine ⟨fun hdev => ⟨fun v hv => ?_, fun hn => ?_⟩, fun hne => ?_⟩
  · simp [Settings.effective_gateway_url, Settings.is_local_dev, hdev, hv]
  · simp [Settings.effective_gateway_url, Settings.is_local_dev, LOCAL_API_GATEWAY_URL,
          hdev, hn]
  · simp [Settings.effective_gateway_url, Settings.is_local_dev, hne]

/-- Witness for C9: the three branches at concrete settings. -/
theorem C9_effective_url_resolution_witness :
    Settings.effective_gateway_url { environment := "development" }
        (fun n => if n = "FINPILOT_API_GATEWAY_URL" then some "http://devbox:9000" else none)
      = "http://devbox:9000" ∧
    Settings.effective_gateway_url { environment := "development" } (fun _ => none)
      = "http://localhost:8000" ∧
    Settings.effective_gateway_url
        { api_gateway_url := "https://staging.finpilot.ai", environment := "staging" }
        (fun _ => none)
      = "https://staging.finpilot.ai" :=
  ⟨((C9_effective_url_resolution { environment := "development" }
        (fun n => if n = "FINPILOT_API_GATEWAY_URL" then some "http://devbox:9000" else none)).1
      rfl).1 "http://devbox:9000" (by simp),
   ((C9_effective_url_resolution { environment := "development" } (fun _ => none)).1 rfl).2 rfl,
   (C9_effective_url_resolution
        { api_gateway_url := "https://staging.finpilot.ai", environment := "staging" }
        (fun _ => none)).2 (by decide)⟩

/-- C8 counterexample: a client whose configured upload timeout is 0 does
not issue its credit-report upload request with the upload timeout value
0 — the request carries the standard timeout 30 instead. -/
theorem C8_timeout_selection_counterexample :
    (FinPilotClient.request_sent ⟨"https://api.finpilot.ai", 30, 0⟩ {}
        (FinPilotClient.analyze_credit_report ⟨"https://api.finpilot.ai", 30, 0⟩
          "pdf" none)).timeout = 30 ∧
    (30 : ℚ) ≠ 0 := by
  refine ⟨?_, by norm_num⟩
  simp [FinPilotClient.request_sent, FinPilotClient.analyze_credit_report, timeoutOr]

/-- C8 amended: analyze_credit_report and analyze_portfolio issue their
request with the configured upload timeout whenever it is nonzero (with
the standard timeout when the upload timeout is 0, by the falsy
fallback); get_credit_health, optimize_loans and create_financial_plan
always issue theirs with the standard timeout. -/
theorem C8_timeout_selection (c : FinPilotClient) (s : Settings) (pdf : String)
    (bureau cas uidh uidl uidp : Option String) (pd loans : Option Json)
    (goals cur : Json) :
    (c.request_sent s (c.analyze_credit_report pdf bureau)).timeout
      = (if c.upload_timeout = 0 then c.timeout else c.upload_timeout) ∧
    (c.request_sent s (c.analyze_portfolio cas pd)).timeout
      = (if c.upload_timeout = 0 then c.timeout else c.upload_timeout) ∧
    (c.request_sent s (c.get_credit_health uidh)).timeout = c.timeout ∧
    (c.request_sent s (c.optimize_loans loans uidl)).timeout = c.timeout ∧
    (c.request_sent s (c.create_financial_plan goals cur uidp)).timeout = c.timeout := by
  refine ⟨?_, ?_, ?_, ?_, ?_⟩ <;>
    simp [FinPilotClient.request_sent, FinPilotClient.analyze_credit_report,
          FinPilotClient.analyze_portfolio, FinPilotClient.get_credit_health,
          FinPilotClient.optimize_loans, FinPilotClient.create_financial_plan, timeoutOr]

/-- C7 counterexample: with a configured-but-empty bearer token alongside
an API key, the headers carry the X-API-Key header and no Authorization
header — the bearer token is not the one sent. -/
theorem C7_auth_header_counterexample :
    (FinPilotClient.get_headers { api_key := some "key-1", jwt_token := some "" }).lookup
        "Authorization" = none ∧
    (FinPilotClient.get_headers { api_key := some "key-1", jwt_token := some "" }).lookup
        "X-API-Key" = some "key-1" := by
  exact ⟨rfl, rfl⟩

/-- C7 amended: Content-Type is always application/json; at most one
authentication header is sent: exactly the bearer Authorization header
when the bearer token is truthy (non-empty), exactly X-API-Key when the
bearer token is not truthy and the API key is truthy, and neither
otherwise. -/
theorem C7_auth_header_selection (s : Settings) :
    (FinPilotClient.get_headers s).lookup "Content-Type" = some "application/json" ∧
    (FinPilotClient.get_headers s).lookup "Authorization"
      = (if Pystr.truthy s.jwt_token then some ("Bearer " ++ s.jwt_token.getD "") else none) ∧
    (FinPilotClient.get_headers s).lookup "X-API-Key"
      = (if Pystr.truthy s.jwt_token then none
         else if Pystr.truthy s.api_key then some (s.api_key.getD "") else none) := by
  by_cases hj : Pystr.truthy s.jwt_token
  · refine ⟨?_, ?_, ?_⟩ <;> simp [FinPilotClient.get_headers, hj, List.lookup]
  · by_cases ha : Pystr.truthy s.api_key <;>
      refine ⟨?_, ?_, ?_⟩ <;> simp [FinPilotClient.get_headers, hj, ha, List.lookup]

/-- C1 counterexample: get_credit_health called with no user_id sends a
body that does not contain the key "user_id" at all (the dict literal is
guarded by `if user_id`), contradicting the claim that the key is always
present with an explicit null. -/
theorem C1_null_fields_counterexample :
    Json.hasKey
      (FinPilotClient.get_credit_health ⟨"https://api.finpilot.ai", 30, 120⟩ none).body
      "user_id" = false := by
  rfl

/-- C1 amended: analyze_credit_report, analyze_portfolio, optimize_loans
and create_financial_plan always include a key for every operation
parameter, with explicit null when an optional parameter is absent;
get_credit_health instead includes the "user_id" key exactly when
user_id is truthy (present and non-empty), omitting it otherwise. -/
theorem C1_null_fields (c : FinPilotClient) (pdf : String)
    (bureau cas uidh uidl uidp : Option String) (pd loans : Option Json)
    (goals cur : Json) :
    ((c.analyze_credit_report pdf bureau).body.get? "pdf_base64" = some (.str pdf) ∧
     (c.analyze_credit_report pdf bureau).body.get? "bureau" = some (Json.ofOptStr bureau)) ∧
    ((c.analyze_portfolio cas pd).body.get? "cas_pdf_base64" = some (Json.ofOptStr cas) ∧
     (c.analyze_portfolio cas pd).body.get? "portfolio_data" = some (Json.ofOpt pd)) ∧
    ((c.optimize_loans loans uidl).body.get? "loans" = some (Json.ofOpt loans) ∧
     (c.optimize_loans loans uidl).body.get? "user_id" = some (Json.ofOptStr uidl)) ∧
    ((c.create_financial_plan goals cur uidp).body.get? "goals" = some goals ∧
     (c.create_financial_plan goals cur uidp).body.get? "current_situation" = some cur ∧
     (c.create_financial_plan goals cur uidp).body.get? "user_id"
       = some (Json.ofOptStr uidp)) ∧
    ((c.get_credit_health uidh).body.get? "user_id"
       = (if Pystr.truthy uidh then some (Json.ofOptStr uidh) else none)) := by
  have hlast : (c.get_credit_health uidh).body.get? "user_id"
      = (if Pystr.truthy uidh then some (Json.ofOptStr uidh) else none) := by
    by_cases h : Pystr.truthy uidh <;>
      simp [FinPilotClient.get_credit_health, Json.get?, lookupField, h]
  refine ⟨⟨?_, ?_⟩, ⟨?_, ?_⟩, ⟨?_, ?_⟩, ⟨?_, ?_, ?_⟩, hlast⟩ <;>
    simp [FinPilotClient.analyze_credit_report, FinPilotClient.analyze_portfolio,
          FinPilotClient.optimize_loans, FinPilotClient.create_financial_plan,
          Json.get?, lookupField]

/-- C3 counterexample: a 404 response whose non-empty body is not valid
JSON does not produce a typed API error carrying status 404 — the body
parse inside the error branch raises a JSON decode error instead. -/
theorem C3_error_extraction_counterexample :
    request_result (.response ⟨404, .malformed "oops"⟩)
      = .error (.jsonDecodeError "oops") ∧
    isAPIErrorResult (request_result (.response ⟨404, .malformed "oops"⟩)) = false := by
  exact ⟨rfl, rfl⟩

/-- C3 amended: for a response with status ≥ 400 whose body is empty or
parses to a JSON object, the client raises a typed API error carrying
that status, with message taken from the body's "message" field when
present (as a string) and the fallback "API request failed" otherwise,
and the parsed body as details; the tool envelope for status 404 with
body `{"message": "not found"}` is exactly
`{"status": "error", "error": "API Error 404: not found"}`.  (A
non-empty body that is not a JSON object instead raises a parse or
attribute error, per the counterexample.) -/
theorem C3_error_extraction (sc : ℕ) (hsc : 400 ≤ sc) :
    (request_result (.response ⟨sc, .empty⟩)
       = .error (.FinPilotAPIError sc "API request failed" (.obj []))) ∧
    (∀ fields m, lookupField fields "message" = some (.str m) →
       request_result (.response ⟨sc, .json (.obj fields)⟩)
         = .error (.FinPilotAPIError sc m (.obj fields))) ∧
    (∀ fields, lookupField fields "message" = none →
       request_result (.response ⟨sc, .json (.obj fields)⟩)
         = .error (.FinPilotAPIError sc "API request failed" (.obj fields))) ∧
    toolEnvelope (request_result
        (.response ⟨404, .json (.obj [("message", .str "not found")])⟩))
      = .obj [("status", .str "error"), ("error", .str "API Error 404: not found")] := by
  refine ⟨?_, fun fields m hm => ?_, fun fields hn => ?_, rfl⟩
  · simp [request_result, hsc, Body.hasContent, Body.parse, getMessageField,
          mkFinPilotAPIError, Json.pyStrOf, Json.truthy, lookupField]
  · cases fields with
    | nil => simp [lookupField] at hm
    | cons hd tl =>
        simp [request_result, hsc, Body.hasContent, Body.parse, getMessageField, hm,
              mkFinPilotAPIError, Json.pyStrOf, Json.truthy]
  · cases fields with
    | nil =>
        simp [request_result, hsc, Body.hasContent, Body.parse, getMessageField, hn,
              mkFinPilotAPIError, Json.pyStrOf, Json.truthy, lookupField]
    | cons hd tl =>
        simp [request_result, hsc, Body.hasContent, Body.parse, getMessageField, hn,
              mkFinPilotAPIError, Json.pyStrOf, Json.truthy]

/-- Witness for C3 at concrete responses: empty 500 body gives the
fallback message, and the 404 message extraction works end to end. -/
theorem C3_error_extraction_witness :
    400 ≤ 500 ∧
    request_result (.response ⟨500, .empty⟩)
      = .error (.FinPilotAPIError 500 "API request failed" (.obj [])) ∧
    request_result (.response ⟨404, .json (.obj [("message", .str "not found")])⟩)
      = .error (.FinPilotAPIError 404 "not found"
          (.obj [("message", .str "not found")])) :=
  ⟨by decide, (C3_error_extraction 500 (by decide)).1,
   (C3_error_extraction 404 (by decide)).2.1 [("message", .str "not found")]
     "not found" rfl⟩

/-- Every result wrapped by a tool handler is one of the two envelope
shapes. -/
theorem toolEnvelope_isEnvelope (r : Except PyError Json) :
    isEnvelope (toolEnvelope r) = true := by
  cases r with
  | ok d => rfl
  | error e => rfl

/-- C6: every tool handler wraps every outcome — API errors, decode
errors on malformed bodies, transport failures — into the uniform
success/error envelope; nothing escapes, and every raised error `e`
becomes `{"status": "error", "error": str(e)}`. -/
theorem C6_handlers_never_propagate (c : FinPilotClient) (s : Settings)
    (outcome : TransportOutcome) (pdf : String)
    (bureau cas uidh uidl uidp : Option String) (pd loans : Option Json)
    (goals cur : Json) :
    isEnvelope (analyze_credit_report_tool c s pdf bureau outcome).2 = true ∧
    isEnvelope (get_credit_health_tool c s uidh outcome).2 = true ∧
    isEnvelope (analyze_portfolio_tool c s cas pd outcome).2 = true ∧
    isEnvelope (optimize_loans_tool c s loans uidl outcome).2 = true ∧
    isEnvelope (create_financial_plan_tool c s goals cur uidp outcome).2 = true ∧
    (∀ e, request_result outcome = .error e →
       (analyze_credit_report_tool c s pdf bureau outcome).2
         = .obj [("status", .str "error"), ("error", .str e.pyStr)]) := by
  refine ⟨?_, ?_, ?_, ?_, ?_, fun e he => ?_⟩ <;>
    simp [analyze_credit_report_tool, get_credit_health_tool, analyze_portfolio_tool,
          optimize_loans_tool, create_financial_plan_tool, runTool,
          toolEnvelope_isEnvelope]
  simp [toolEnvelope, he]

/-- Witness for C6: a success-status response with a malformed JSON body
is converted to the error envelope rather than escaping. -/
theorem C6_handlers_never_propagate_witness :
    isEnvelope (analyze_credit_report_tool ⟨"https://api.finpilot.ai", 30, 120⟩ {}
        "pdf" none (.response ⟨200, .malformed "bad body"⟩)).2 = true ∧
    (analyze_credit_report_tool ⟨"https://api.finpilot.ai", 30, 120⟩ {}
        "pdf" none (.response ⟨200, .malformed "bad body"⟩)).2
      = .obj [("status", .str "error"),
              ("error", .str (PyError.pyStr (.jsonDecodeError "bad body")))] :=
  ⟨(C6_handlers_never_propagate ⟨"https://api.finpilot.ai", 30, 120⟩ {}
      (.response ⟨200, .malformed "bad body"⟩) "pdf" none none none none none
      none none .null .null).1,
   (C6_handlers_never_propagate ⟨"https://api.finpilot.ai", 30, 120⟩ {}
      (.response ⟨200, .malformed "bad body"⟩) "pdf" none none none none none
      none none .null .null).2.2.2.2.2 (.jsonDecodeError "bad body") rfl⟩

/-- C2: the client singleton is constructed at module import time, before
`main` applies the CLI overrides to the settings, so its base URL (used
for every request) is the one resolved from the pre-override settings:
starting the process with `--api-gateway-url http://localhost:9999`
leaves the client pointed at https://api.finpilot.ai even though the
post-override settings resolve to the overridden URL. -/
theorem C2_cli_override_ineffective :
    (startup {} (fun _ => none) { api_gateway_url := some "http://localhost:9999" }).client.base_url
      = "https://api.finpilot.ai" ∧
    ((startup {} (fun _ => none)
        { api_gateway_url := some "http://localhost:9999" }).settings.effective_gateway_url
      (fun _ => none)) = "http://localhost:9999" ∧
    ("https://api.finpilot.ai" : String) ≠ "http://localhost:9999" := by
  refine ⟨rfl, rfl, by decide⟩

end FinPilot
